import Mathlib

/-!
Verification of the BBJ network client (src/clients/network_client.py).

The Python class BBJ is shallowly embedded as pure Lean functions over an
explicit client state.  JSON values are a small inductive type; Python
dictionaries become association lists (insertion ordered, unique keys, as
Python kwargs guarantee); Python exceptions become an explicit error value
threaded through an Except result; the HTTP transport (urllib) becomes a
function from the composed request to a canned transport result, and every
method additionally returns the ordered list of wire requests it issued, so
that properties about what is (and is not) sent over the network can be
stated.  Methods that assign to self's fields return the updated state;
every method returns the (possibly unchanged) state explicitly.
-/

namespace BBJ

/-- JSON values, as produced by Python json.loads / consumed by json.dumps.
Numbers are modelled as integers (no claim involves fractional values). -/
inductive JSON where
  | null : JSON
  | bool : Bool → JSON
  | num : Int → JSON
  | str : String → JSON
  | arr : List JSON → JSON
  | obj : List (String × JSON) → JSON

/-- First-match lookup in an association list, the semantics of Python
dict access for an insertion-ordered dict with unique keys. -/
def lookupField : List (String × JSON) → String → Option JSON
  | [], _ => none
  | (k, v) :: rest, key => if k = key then some v else lookupField rest key

/-- Removal of a key from an association list: Python dict.pop. -/
def removeField : List (String × JSON) → String → List (String × JSON)
  | [], _ => []
  | (k, v) :: rest, key => if k = key then rest else (k, v) :: removeField rest key

/-- Python dict.get(key) on a decoded JSON value: None when the key is
absent or the value is not a dict. -/
def dictGet : JSON → String → Option JSON
  | JSON.obj fields, key => lookupField fields key
  | _, _ => none

/-- Python truthiness of a decoded JSON value: None, False, 0, "" and empty
containers are falsy, everything else is truthy. -/
def truthyJSON : JSON → Bool
  | JSON.null => false
  | JSON.bool b => b
  | JSON.num n => n != 0
  | JSON.str s => s != ""
  | JSON.arr xs => !xs.isEmpty
  | JSON.obj fs => !fs.isEmpty

/-- Python truthiness of dict.get's result: a missing key (None) is falsy. -/
def truthyOptJSON : Option JSON → Bool
  | none => false
  | some v => truthyJSON v

/-- Python truthiness of an optional string attribute such as
self.user_name: None and the empty string are falsy. -/
def truthyOptStr : Option String → Bool
  | none => false
  | some s => s != ""

/-- Python equality between a decoded JSON value and an int literal
(True == 1 and False == 0 hold in Python). -/
def pyEqInt : JSON → Int → Bool
  | JSON.num n, m => n == m
  | JSON.bool b, m => (if b then (1 : Int) else 0) == m
  | _, _ => false

/-- Python equality between a decoded JSON value and a str. -/
def pyEqStr : JSON → String → Bool
  | JSON.str t, s => t == s
  | _, _ => false

/-- The Python exception classes that can escape the client's methods. -/
inductive ExcClass where
  | childProcessError : ExcClass
  | valueError : ExcClass
  | userWarning : ExcClass
  | connectionRefusedError : ExcClass
  | assertionError : ExcClass
  | urlError : ExcClass
  | keyError : ExcClass
  | unboundLocalError : ExcClass
deriving DecidableEq

/-- A raised Python exception: its class together with the attributes the
client attaches to it (raise_exception attaches code, description and body;
validate attaches description; the rest attach nothing). -/
structure PyExc where
  cls : ExcClass
  code : Option JSON := none
  description : Option JSON := none
  body : Option JSON := none

/-- One wire request as composed by BBJ.request: the url (self.base with
the endpoint substituted), the headers, and the JSON body.  The endpoint is
carried alongside for convenience; it is the string substituted into url. -/
structure Req where
  url : String
  endpoint : String
  headers : List (String × String)
  body : JSON

/-- Result of one urllib round trip: either the decoded JSON body (urlopen
succeeded, or raised HTTPError whose error body was read — both paths yield
bytes parsed by json.loads) or failure to connect at all (URLError). -/
inductive TransportResult where
  | ok : JSON → TransportResult
  | noConnect : TransportResult

/-- The remote server plus network, abstracted as a function from the
composed request to the transport outcome. -/
def Oracle := Req → TransportResult

/-- The mutable state of a BBJ instance: base (the URL prefix obtained from
host and port; the source stores "http://host:port/api/%s" and substitutes
the endpoint for %s, modelled here as the url text before the endpoint),
user_name, user_auth, send_auth and the cached profile user. -/
structure ClientState where
  base : String
  user_name : Option String
  user_auth : Option String
  send_auth : Bool
  user : JSON

/-- raise_exception (lines 127-159): reads description and code from the
error object (KeyError when absent), picks the exception class by the fixed
code table, and attaches code, description and body.  A code matching no
branch leaves the local variable e unassigned, so the attribute assignment
raises UnboundLocalError. -/
def raise_exception (error_object : JSON) : PyExc :=
  match dictGet error_object "description" with
  | none => { cls := ExcClass.keyError }
  | some description =>
    match dictGet error_object "code" with
    | none => { cls := ExcClass.keyError }
    | some code =>
      if pyEqInt code 0 || pyEqInt code 1 || pyEqInt code 2 then
        { cls := ExcClass.childProcessError, code := some code,
          description := some description, body := some error_object }
      else if pyEqInt code 3 then
        { cls := ExcClass.valueError, code := some code,
          description := some description, body := some error_object }
      else if pyEqInt code 4 then
        { cls := ExcClass.userWarning, code := some code,
          description := some description, body := some error_object }
      else if pyEqInt code 5 then
        { cls := ExcClass.connectionRefusedError, code := some code,
          description := some description, body := some error_object }
      else
        { cls := ExcClass.unboundLocalError }

/-- The request composed by request (lines 101-112): headers start from
Content-Type; a truthy no_auth parameter is popped from the body and
suppresses auth headers; otherwise User/Auth headers are attached when
send_auth, user_name and user_auth are all truthy; the remaining parameter
dict is serialized as the JSON body. -/
def requestPrep (s : ClientState) (endpoint : String) (params : List (String × JSON)) : Req :=
  if truthyOptJSON (lookupField params "no_auth") then
    { url := s.base ++ endpoint, endpoint := endpoint,
      headers := [("Content-Type", "application/json")],
      body := JSON.obj (removeField params "no_auth") }
  else if s.send_auth && truthyOptStr s.user_name && truthyOptStr s.user_auth then
    { url := s.base ++ endpoint, endpoint := endpoint,
      headers := [("Content-Type", "application/json"),
                  ("User", s.user_name.getD ""), ("Auth", s.user_auth.getD "")],
      body := JSON.obj params }
  else
    { url := s.base ++ endpoint, endpoint := endpoint,
      headers := [("Content-Type", "application/json")],
      body := JSON.obj params }

/-- The value returned (or exception raised) by request (lines 114-124):
URLError when the connection fails; otherwise the decoded JSON is returned
unless it is truthy and carries a truthy error field, in which case the
error object goes to raise_exception. -/
def requestResult (o : Oracle) (s : ClientState) (endpoint : String)
    (params : List (String × JSON)) : Except PyExc JSON :=
  match o (requestPrep s endpoint params) with
  | TransportResult.noConnect => Except.error { cls := ExcClass.urlError }
  | TransportResult.ok value =>
    if truthyJSON value && truthyOptJSON (dictGet value "error") then
      Except.error (raise_exception ((dictGet value "error").getD JSON.null))
    else
      Except.ok value

/-- request (lines 83-124).  It never assigns to self's fields, so the
state component is returned unchanged; the trace is the single request it
issues. -/
def request (o : Oracle) (s : ClientState) (endpoint : String)
    (params : List (String × JSON)) :
    Except PyExc JSON × ClientState × List Req :=
  (requestResult o s endpoint params, s, [requestPrep s endpoint params])

/-- __call__ (lines 75-80): calling the object is exactly request. -/
def call (o : Oracle) (s : ClientState) (endpoint : String)
    (params : List (String × JSON)) :
    Except PyExc JSON × ClientState × List Req :=
  request o s endpoint params

/-- validate (lines 162-196): one anonymous db_validate request with key
and value; on a falsy data.bool, return False when the exception argument
is falsy, otherwise raise an exception of that class carrying the server's
description; on a truthy data.bool return True.  Subscripting a missing
field raises KeyError.  request assigns no state, so the state is s. -/
def validate (o : Oracle) (s : ClientState) (key : String) (value : JSON)
    (exception : Option ExcClass) :
    Except PyExc Bool × ClientState × List Req :=
  (match requestResult o s "db_validate"
      [("no_auth", JSON.bool true), ("key", JSON.str key), ("value", value)] with
   | Except.error e => Except.error e
   | Except.ok response =>
     match dictGet response "data" with
     | none => Except.error { cls := ExcClass.keyError }
     | some dat =>
       match dictGet dat "bool" with
       | none => Except.error { cls := ExcClass.keyError }
       | some b =>
         if !truthyJSON b then
           match exception with
           | none => Except.ok false
           | some cls =>
             match dictGet dat "description" with
             | none => Except.error { cls := ExcClass.keyError }
             | some d => Except.error { cls := cls, description := some d }
         else
           Except.ok true,
   s, [requestPrep s "db_validate"
         [("no_auth", JSON.bool true), ("key", JSON.str key), ("value", value)]])

/-- validate_all (lines 199-230): the list comprehension applies validate
to each pair in input order; a raised exception propagates immediately,
discarding the results gathered so far and evaluating no later pair. -/
def validate_all (o : Oracle) (s : ClientState)
    (keys_and_values : List (String × JSON)) (exception : Option ExcClass) :
    Except PyExc (List Bool) × ClientState × List Req :=
  match keys_and_values with
  | [] => (Except.ok [], s, [])
  | (key, value) :: rest =>
    match validate o s key value exception with
    | (Except.error e, _, t) => (Except.error e, s, t)
    | (Except.ok b, _, t) =>
      match validate_all o s rest exception with
      | (Except.error e, _, t2) => (Except.error e, s, t ++ t2)
      | (Except.ok bs, _, t2) => (Except.ok (b :: bs), s, t ++ t2)

/-- validate_credentials (lines 282-318): shape-validates user_name and
auth_hash via validate_all with ValueError, then issues an anonymous
check_auth request and returns its data field; a ConnectionRefusedError
raised inside the try block is re-raised when the exception argument is
truthy and swallowed into False otherwise. -/
def validate_credentials (o : Oracle) (s : ClientState)
    (user_name user_auth : String) (exception : Bool) :
    Except PyExc JSON × ClientState × List Req :=
  match validate_all o s
      [("user_name", JSON.str user_name), ("auth_hash", JSON.str user_auth)]
      (some ExcClass.valueError) with
  | (Except.error e, _, t) => (Except.error e, s, t)
  | (Except.ok _, _, t) =>
    match requestResult o s "check_auth"
        [("no_auth", JSON.bool true), ("target_user", JSON.str user_name),
         ("target_hash", JSON.str user_auth)] with
    | Except.error e =>
      if e.cls = ExcClass.connectionRefusedError then
        if exception then
          (Except.error e, s,
           t ++ [requestPrep s "check_auth"
                   [("no_auth", JSON.bool true), ("target_user", JSON.str user_name),
                    ("target_hash", JSON.str user_auth)]])
        else
          (Except.ok (JSON.bool false), s,
           t ++ [requestPrep s "check_auth"
                   [("no_auth", JSON.bool true), ("target_user", JSON.str user_name),
                    ("target_hash", JSON.str user_auth)]])
      else
        (Except.error e, s,
         t ++ [requestPrep s "check_auth"
                 [("no_auth", JSON.bool true), ("target_user", JSON.str user_name),
                  ("target_hash", JSON.str user_auth)]])
    | Except.ok response =>
      match dictGet response "data" with
      | none =>
        (Except.error { cls := ExcClass.keyError }, s,
         t ++ [requestPrep s "check_auth"
                 [("no_auth", JSON.bool true), ("target_user", JSON.str user_name),
                  ("target_hash", JSON.str user_auth)]])
      | some d =>
        (Except.ok d, s,
         t ++ [requestPrep s "check_auth"
                 [("no_auth", JSON.bool true), ("target_user", JSON.str user_name),
                  ("target_hash", JSON.str user_auth)]])

/-- Stand-in for Python hashlib sha256(...).hexdigest() on a utf8 string,
an external library function outside this repository; modelled as an
injective tagging of the input, which no claim's behaviour depends on. -/
def sha256_hexdigest (s : String) : String :=
  "sha256:" ++ s

/-- Lines 276-279 of set_credentials, the code after the validity check:
assign user_auth then user_name, refresh the cached profile from a get_me
request made with the new credentials (so an exception there leaves both
fields already set), and return True. -/
def set_credentials_finish (o : Oracle) (s : ClientState)
    (user_name auth : String) :
    Except PyExc Bool × ClientState × List Req :=
  match requestResult o { s with user_auth := some auth, user_name := some user_name }
      "get_me" [] with
  | Except.error e =>
    (Except.error e, { s with user_auth := some auth, user_name := some user_name },
     [requestPrep { s with user_auth := some auth, user_name := some user_name } "get_me" []])
  | Except.ok response =>
    match dictGet response "data" with
    | none =>
      (Except.error { cls := ExcClass.keyError },
       { s with user_auth := some auth, user_name := some user_name },
       [requestPrep { s with user_auth := some auth, user_name := some user_name } "get_me" []])
    | some d =>
      (Except.ok true,
       { s with user_auth := some auth, user_name := some user_name, user := d },
       [requestPrep { s with user_auth := some auth, user_name := some user_name } "get_me" []])

/-- set_credentials (lines 233-279): hash the secret unless hash_auth is
false; when check_validity holds and validate_credentials (called with its
default exception=True) reports falsy, reset both credential fields to
None and raise ConnectionRefusedError; otherwise commit via
set_credentials_finish. -/
def set_credentials (o : Oracle) (s : ClientState)
    (user_name user_auth : String) (hash_auth check_validity : Bool) :
    Except PyExc Bool × ClientState × List Req :=
  if check_validity then
    match validate_credentials o s user_name
        (if hash_auth then sha256_hexdigest user_auth else user_auth) true with
    | (Except.error e, _, t) => (Except.error e, s, t)
    | (Except.ok v, _, t) =>
      if !truthyJSON v then
        (Except.error { cls := ExcClass.connectionRefusedError },
         { s with user_name := none, user_auth := none }, t)
      else
        match set_credentials_finish o s user_name
            (if hash_auth then sha256_hexdigest user_auth else user_auth) with
        | (r, s2, t2) => (r, s2, t ++ t2)
  else
    set_credentials_finish o s user_name
      (if hash_auth then sha256_hexdigest user_auth else user_auth)

/-- user_is_registered (lines 321-332): one anonymous request, returns the
data field. -/
def user_is_registered (o : Oracle) (s : ClientState) (target_user : String) :
    Except PyExc JSON × ClientState × List Req :=
  let ps : List (String × JSON) :=
    [("no_auth", JSON.bool true), ("target_user", JSON.str target_user)]
  (match requestResult o s "user_is_registered" ps with
   | Except.error e => Except.error e
   | Except.ok response =>
     match dictGet response "data" with
     | none => Except.error { cls := ExcClass.keyError }
     | some d => Except.ok d,
   s, [requestPrep s "user_is_registered" ps])

/-- Lines 359-373 of user_register, after the secret has been hashed:
the anonymous registration request, the echoed-response assertion, and the
optional commit through set_credentials with hash_auth=False positionally
and check_validity left at its default True. -/
def user_register_hashed (o : Oracle) (s : ClientState)
    (user_name auth : String) (set_as_user : Bool) :
    Except PyExc JSON × ClientState × List Req :=
  match requestResult o s "user_register"
      [("no_auth", JSON.bool true), ("user_name", JSON.str user_name),
       ("auth_hash", JSON.str auth)] with
  | Except.error e =>
    (Except.error e, s,
     [requestPrep s "user_register"
        [("no_auth", JSON.bool true), ("user_name", JSON.str user_name),
         ("auth_hash", JSON.str auth)]])
  | Except.ok response =>
    match dictGet response "data" with
    | none =>
      (Except.error { cls := ExcClass.keyError }, s,
       [requestPrep s "user_register"
          [("no_auth", JSON.bool true), ("user_name", JSON.str user_name),
           ("auth_hash", JSON.str auth)]])
    | some dat =>
      match dictGet dat "auth_hash", dictGet dat "user_name" with
      | some ah, some un =>
        if pyEqStr ah auth && pyEqStr un user_name then
          if set_as_user then
            match set_credentials o s user_name auth false true with
            | (Except.error e, s2, t2) =>
              (Except.error e, s2,
               requestPrep s "user_register"
                 [("no_auth", JSON.bool true), ("user_name", JSON.str user_name),
                  ("auth_hash", JSON.str auth)] :: t2)
            | (Except.ok _, s2, t2) =>
              (Except.ok dat, s2,
               requestPrep s "user_register"
                 [("no_auth", JSON.bool true), ("user_name", JSON.str user_name),
                  ("auth_hash", JSON.str auth)] :: t2)
          else
            (Except.ok dat, s,
             [requestPrep s "user_register"
                [("no_auth", JSON.bool true), ("user_name", JSON.str user_name),
                 ("auth_hash", JSON.str auth)]])
        else
          (Except.error { cls := ExcClass.assertionError }, s,
           [requestPrep s "user_register"
              [("no_auth", JSON.bool true), ("user_name", JSON.str user_name),
               ("auth_hash", JSON.str auth)]])
      | _, _ =>
        (Except.error { cls := ExcClass.keyError }, s,
         [requestPrep s "user_register"
            [("no_auth", JSON.bool true), ("user_name", JSON.str user_name),
             ("auth_hash", JSON.str auth)]])

/-- user_register (lines 335-373): hash the secret unless hash_auth is
false, issue the anonymous user_register request, assert that the response
data echoes the sent auth_hash and user_name (AssertionError otherwise;
KeyError when an echoed field is missing), then when set_as_user holds,
commit by set_credentials with hash_auth=False positionally and
check_validity left at its default True, and return the response data. -/
def user_register (o : Oracle) (s : ClientState)
    (user_name user_auth : String) (hash_auth set_as_user : Bool) :
    Except PyExc JSON × ClientState × List Req :=
  user_register_hashed o s user_name
    (if hash_auth then sha256_hexdigest user_auth else user_auth) set_as_user

/-- user_update (lines 376-382): an authorized user_update request, then a
get_me request whose data field refreshes the cached profile (so the
profile is refreshed even if the final data subscript raises), returning
the update response's data field. -/
def user_update (o : Oracle) (s : ClientState)
    (params : List (String × JSON)) :
    Except PyExc JSON × ClientState × List Req :=
  match requestResult o s "user_update" params with
  | Except.error e => (Except.error e, s, [requestPrep s "user_update" params])
  | Except.ok response =>
    match requestResult o s "get_me" [] with
    | Except.error e =>
      (Except.error e, s,
       [requestPrep s "user_update" params, requestPrep s "get_me" []])
    | Except.ok me =>
      match dictGet me "data" with
      | none =>
        (Except.error { cls := ExcClass.keyError }, s,
         [requestPrep s "user_update" params, requestPrep s "get_me" []])
      | some d =>
        match dictGet response "data" with
        | none =>
          (Except.error { cls := ExcClass.keyError }, { s with user := d },
           [requestPrep s "user_update" params, requestPrep s "get_me" []])
        | some rd =>
          (Except.ok rd, { s with user := d },
           [requestPrep s "user_update" params, requestPrep s "get_me" []])

/-- thread_index (lines 385-397): one request, returns (data, usermap). -/
def thread_index (o : Oracle) (s : ClientState) :
    Except PyExc (JSON × JSON) × ClientState × List Req :=
  (match requestResult o s "thread_index" [] with
   | Except.error e => Except.error e
   | Except.ok response =>
     match dictGet response "data" with
     | none => Except.error { cls := ExcClass.keyError }
     | some d =>
       match dictGet response "usermap" with
       | none => Except.error { cls := ExcClass.keyError }
       | some um => Except.ok (d, um),
   s, [requestPrep s "thread_index" []])

/-- thread_load (lines 400-412): one request with thread_id, returns
(data, usermap). -/
def thread_load (o : Oracle) (s : ClientState) (thread_id : JSON) :
    Except PyExc (JSON × JSON) × ClientState × List Req :=
  (match requestResult o s "thread_load" [("thread_id", thread_id)] with
   | Except.error e => Except.error e
   | Except.ok response =>
     match dictGet response "data" with
     | none => Except.error { cls := ExcClass.keyError }
     | some d =>
       match dictGet response "usermap" with
       | none => Except.error { cls := ExcClass.keyError }
       | some um => Except.ok (d, um),
   s, [requestPrep s "thread_load" [("thread_id", thread_id)]])

/-- The field values assigned by __init__ (lines 66-68) before the get_me
call: the base url built from host and port, anonymous credentials, and
send_auth defaulting to True. -/
def initState (host port : String) : ClientState :=
  { base := "http://" ++ host ++ ":" ++ port ++ "/api/",
    user_name := none, user_auth := none, send_auth := true,
    user := JSON.null }

/-- __init__ (lines 44-72): assign the initState fields, then immediately
issue get_me through __call__; a URLError is re-raised as a fresh URLError,
any other exception propagates, and on success the data field becomes the
cached profile of the returned instance.  Failure returns no state at all. -/
def init (o : Oracle) (host port : String) :
    Except PyExc ClientState × List Req :=
  (match requestResult o (initState host port) "get_me" [] with
   | Except.error e =>
     if e.cls = ExcClass.urlError then
       Except.error { cls := ExcClass.urlError }
     else
       Except.error e
   | Except.ok response =>
     match dictGet response "data" with
     | none => Except.error { cls := ExcClass.keyError }
     | some d => Except.ok { initState host port with user := d },
   [requestPrep (initState host port) "get_me" []])

/-- The Credential State invariant from the data model: user_name and
user_auth are both present or both absent. -/
def credInvariant (s : ClientState) : Prop :=
  s.user_name = none ↔ s.user_auth = none

end BBJ

open BBJ

/-! Concrete fixtures (canned transports and client states) used by the
closed evaluation theorems below. -/

/-- An authenticated client state. -/
def sAuth : ClientState :=
  { base := "http://127.0.0.1:7099/api/", user_name := some "alice",
    user_auth := some "hash1", send_auth := true, user := JSON.null }

/-- An anonymous client state. -/
def sAnon : ClientState :=
  { base := "http://127.0.0.1:7099/api/", user_name := none,
    user_auth := none, send_auth := true, user := JSON.null }

/-- A canned transport on which every validation passes, check_auth
matches, and user_register echoes the request body back as data. -/
def okOracle : Oracle := fun r =>
  if r.endpoint = "db_validate" then
    TransportResult.ok (JSON.obj [("data", JSON.obj [("bool", JSON.bool true)])])
  else if r.endpoint = "check_auth" then
    TransportResult.ok (JSON.obj [("data", JSON.bool true)])
  else if r.endpoint = "user_register" then
    TransportResult.ok (JSON.obj [("data", r.body)])
  else
    TransportResult.ok (JSON.obj [("data", JSON.obj [("user_name", JSON.str "alice")])])

/-- A canned transport on which validations pass but check_auth reports
that the credentials do not match. -/
def rejectOracle : Oracle := fun r =>
  if r.endpoint = "db_validate" then
    TransportResult.ok (JSON.obj [("data", JSON.obj [("bool", JSON.bool true)])])
  else if r.endpoint = "check_auth" then
    TransportResult.ok (JSON.obj [("data", JSON.bool false)])
  else
    TransportResult.ok (JSON.obj [("data", JSON.null)])

/-- A transport that cannot connect at all. -/
def downOracle : Oracle := fun _ => TransportResult.noConnect

/-- Whether an optional JSON value is the given string, used by canned
transports to inspect request bodies. -/
def optIsStr (ov : Option JSON) (s : String) : Bool :=
  match ov with
  | some v => pyEqStr v s
  | none => false

/-- A canned transport whose db_validate endpoint rejects exactly the key
user_name (with a description) and accepts every other key. -/
def validateOracle : Oracle := fun r =>
  if r.endpoint = "db_validate" then
    if optIsStr (dictGet r.body "key") "user_name" then
      TransportResult.ok (JSON.obj [("data",
        JSON.obj [("bool", JSON.bool false), ("description", JSON.str "newlines")])])
    else
      TransportResult.ok (JSON.obj [("data", JSON.obj [("bool", JSON.bool true)])])
  else
    TransportResult.ok (JSON.obj [("data", JSON.null)])

/-- C10: invoking the client object itself (its call operator, __call__)
is extensionally equal to invoking its request method with the same
arguments: same returned value or raised error, same resulting state, and
the same issued wire requests. -/
theorem call_eq_request (o : Oracle) (s : ClientState) (endpoint : String)
    (params : List (String × JSON)) :
    call o s endpoint params = request o s endpoint params := rfl

/-- C1: for every error object carrying a description and an integer code
0-5, raise_exception raises exactly the class of the fixed table (0, 1, 2
ChildProcessError; 3 ValueError; 4 UserWarning; 5 ConnectionRefusedError),
and the raised error's code, description and body attributes equal the
input's code, its description, and the complete original error object. -/
theorem raise_exception_known_codes (eo d : JSON) (c : Int)
    (hc : dictGet eo "code" = some (JSON.num c))
    (hd : dictGet eo "description" = some d) :
    ((c = 0 ∨ c = 1 ∨ c = 2) → raise_exception eo =
      { cls := ExcClass.childProcessError, code := some (JSON.num c),
        description := some d, body := some eo }) ∧
    (c = 3 → raise_exception eo =
      { cls := ExcClass.valueError, code := some (JSON.num c),
        description := some d, body := some eo }) ∧
    (c = 4 → raise_exception eo =
      { cls := ExcClass.userWarning, code := some (JSON.num c),
        description := some d, body := some eo }) ∧
    (c = 5 → raise_exception eo =
      { cls := ExcClass.connectionRefusedError, code := some (JSON.num c),
        description := some d, body := some eo }) := by
  refine ⟨?_, ?_, ?_, ?_⟩ <;> intro h
  · rcases h with h | h | h <;> subst h <;>
      simp [raise_exception, hc, hd, pyEqInt]
  all_goals subst h; simp [raise_exception, hc, hd, pyEqInt]

/-- Witness for C1 at code 4 on a concrete error object. -/
theorem raise_exception_known_codes_witness :
    raise_exception
        (JSON.obj [("code", JSON.num 4), ("description", JSON.str "policy")]) =
      { cls := ExcClass.userWarning, code := some (JSON.num 4),
        description := some (JSON.str "policy"),
        body := some (JSON.obj [("code", JSON.num 4),
                                ("description", JSON.str "policy")]) } :=
  (raise_exception_known_codes
    (JSON.obj [("code", JSON.num 4), ("description", JSON.str "policy")])
    (JSON.str "policy") 4 rfl rfl).2.2.1 rfl

/-- C5: on an error object whose integer code is outside 0-5 the source
does not raise an InternalFault carrying the code; no branch of
raise_exception assigns e, so the attribute assignment on line 158 raises
UnboundLocalError, with no code, description or body attached. -/
theorem raise_exception_unknown_code_unbound :
    raise_exception
        (JSON.obj [("code", JSON.num 6), ("description", JSON.str "whoops")]) =
      { cls := ExcClass.unboundLocalError } := rfl

/-- C3: request only pops no_auth when it is truthy, so supplying
no_auth=False leaves the key in the serialized JSON body (and, the get
being falsy, auth headers are still attached), contradicting the method's
own docstring that an included no_auth is not sent with the request.  The
evaluation below exhibits this at the failing input. -/
theorem request_no_auth_false_in_body :
    ∃ r, (request okOracle sAuth "thread_index"
            [("no_auth", JSON.bool false)]).2.2 = [r] ∧
      dictGet r.body "no_auth" = some (JSON.bool false) ∧
      ("User", "alice") ∈ r.headers :=
  ⟨requestPrep sAuth "thread_index" [("no_auth", JSON.bool false)],
   rfl, rfl, by decide⟩

/-- C6: request attaches the User and Auth headers if and only if
send_auth is true, user_name and user_auth are both truthy (present and
non-empty), and no_auth was not requested truthy among the parameters;
when any of these fails the request goes out with only the Content-Type
header and no error is raised at this step. -/
theorem request_header_attachment (o : Oracle) (s : ClientState)
    (endpoint : String) (params : List (String × JSON)) :
    ∃ r, (request o s endpoint params).2.2 = [r] ∧
      ((("User", s.user_name.getD "") ∈ r.headers ∧
        ("Auth", s.user_auth.getD "") ∈ r.headers) ↔
        (s.send_auth = true ∧ truthyOptStr s.user_name = true ∧
         truthyOptStr s.user_auth = true ∧
         truthyOptJSON (lookupField params "no_auth") = false)) ∧
      ((s.send_auth = true ∧ truthyOptStr s.user_name = true ∧
        truthyOptStr s.user_auth = true ∧
        truthyOptJSON (lookupField params "no_auth") = false) →
        r.headers = [("Content-Type", "application/json"),
                     ("User", s.user_name.getD ""),
                     ("Auth", s.user_auth.getD "")]) ∧
      (¬(s.send_auth = true ∧ truthyOptStr s.user_name = true ∧
         truthyOptStr s.user_auth = true ∧
         truthyOptJSON (lookupField params "no_auth") = false) →
        r.headers = [("Content-Type", "application/json")]) := by
  refine ⟨requestPrep s endpoint params, rfl, ?_, ?_, ?_⟩ <;>
    unfold requestPrep <;>
    cases hna : truthyOptJSON (lookupField params "no_auth") <;>
    cases hsa : s.send_auth <;>
    cases hun : truthyOptStr s.user_name <;>
    cases hua : truthyOptStr s.user_auth <;>
    simp_all

/-- Witness for C6: with valid credentials, send_auth on and no no_auth
parameter, the composed request carries the User and Auth headers. -/
theorem request_header_attachment_witness :
    ∃ r, (request okOracle sAuth "thread_index"
            ([] : List (String × JSON))).2.2 = [r] ∧
      r.headers = [("Content-Type", "application/json"),
                   ("User", "alice"), ("Auth", "hash1")] := by
  obtain ⟨r, h1, -, h3, -⟩ :=
    request_header_attachment okOracle sAuth "thread_index" []
  exact ⟨r, h1, by simpa [sAuth] using h3 ⟨rfl, rfl, rfl, rfl⟩⟩

/-- C2: whatever the prior credential state, when check_validity holds and
the server's credential check reports the pair as not matching (a
non-truthy validate_credentials result), set_credentials raises
ConnectionRefusedError and the resulting state is fully anonymous: both
user_name and user_auth are None. -/
theorem set_credentials_rejected (o : Oracle) (s : ClientState)
    (user_name user_auth auth : String) (hash_auth : Bool) (v : JSON)
    (hauth : auth = if hash_auth then sha256_hexdigest user_auth else user_auth)
    (hvc : (validate_credentials o s user_name auth true).1 = Except.ok v)
    (hv : truthyJSON v = false) :
    (set_credentials o s user_name user_auth hash_auth true).1 =
      Except.error { cls := ExcClass.connectionRefusedError } ∧
    (set_credentials o s user_name user_auth hash_auth true).2.1.user_name = none ∧
    (set_credentials o s user_name user_auth hash_auth true).2.1.user_auth = none := by
  subst hauth
  unfold set_credentials
  rcases h : validate_credentials o s user_name
      (if hash_auth then sha256_hexdigest user_auth else user_auth) true
    with ⟨r, s1, t⟩
  rw [h] at hvc
  simp only at hvc
  subst hvc
  simp [h, hv]

/-- Witness for C2: against a canned transport whose check_auth reports a
mismatch, set_credentials on an authenticated state raises
ConnectionRefusedError and leaves both credential fields None. -/
theorem set_credentials_rejected_witness :
    (set_credentials rejectOracle sAuth "bob" "pw" true true).1 =
      Except.error { cls := ExcClass.connectionRefusedError } ∧
    (set_credentials rejectOracle sAuth "bob" "pw" true true).2.1.user_name = none ∧
    (set_credentials rejectOracle sAuth "bob" "pw" true true).2.1.user_auth = none :=
  set_credentials_rejected rejectOracle sAuth "bob" "pw"
    (sha256_hexdigest "pw") true (JSON.bool false) rfl rfl rfl

/-- C9: construction issues exactly one wire call, get_me, as its first
act; when the transport cannot connect, construction raises URLError and
no client state is produced; when construction returns a state, its cached
profile equals the data field of the get_me response. -/
theorem init_spec (o : Oracle) (host port : String) :
    ((BBJ.init o host port).2.map Req.endpoint = ["get_me"]) ∧
    (∀ r, (BBJ.init o host port).2 = [r] →
      o r = TransportResult.noConnect →
      (BBJ.init o host port).1 = Except.error { cls := ExcClass.urlError }) ∧
    (∀ s, (BBJ.init o host port).1 = Except.ok s →
      ∃ r v, (BBJ.init o host port).2 = [r] ∧ o r = TransportResult.ok v ∧
        dictGet v "data" = some s.user) := by
  refine ⟨rfl, ?_, ?_⟩
  · intro r hr hno
    have hr2 : r = requestPrep (initState host port) "get_me" [] := by
      have hr3 : [requestPrep (initState host port) "get_me" []] = [r] := hr
      exact (List.cons.injEq _ _ _ _ ▸ hr3).1.symm
    subst hr2
    show (match requestResult o (initState host port) "get_me" [] with
          | Except.error e =>
            if e.cls = ExcClass.urlError then
              Except.error { cls := ExcClass.urlError }
            else
              Except.error e
          | Except.ok response =>
            match dictGet response "data" with
            | none => Except.error { cls := ExcClass.keyError }
            | some d =>
              Except.ok { initState host port with user := d } :
          Except PyExc ClientState) =
        Except.error { cls := ExcClass.urlError }
    unfold requestResult
    rw [hno]
    rfl
  · intro s hs
    have hs2 : (match requestResult o (initState host port) "get_me" [] with
          | Except.error e =>
            if e.cls = ExcClass.urlError then
              Except.error { cls := ExcClass.urlError }
            else
              Except.error e
          | Except.ok response =>
            match dictGet response "data" with
            | none => Except.error { cls := ExcClass.keyError }
            | some d =>
              Except.ok { initState host port with user := d } :
          Except PyExc ClientState) = Except.ok s := hs
    unfold requestResult at hs2
    cases ho : o (requestPrep (initState host port) "get_me" []) with
    | noConnect => rw [ho] at hs2; simp at hs2
    | ok value =>
      rw [ho] at hs2
      dsimp only at hs2
      by_cases hv : (truthyJSON value && truthyOptJSON (dictGet value "error")) = true
      · rw [if_pos hv] at hs2
        dsimp only at hs2
        split at hs2 <;> simp at hs2
      · rw [if_neg hv] at hs2
        dsimp only at hs2
        cases hd : dictGet value "data" with
        | none => rw [hd] at hs2; simp at hs2
        | some d =>
          rw [hd] at hs2
          simp only [Except.ok.injEq] at hs2
          refine ⟨requestPrep (initState host port) "get_me" [], value, rfl, ho, ?_⟩
          rw [hd, ← hs2]

/-- Witness for C9: against a transport that cannot connect, construction
fails with URLError. -/
theorem init_spec_witness :
    (BBJ.init downOracle "127.0.0.1" "7099").1 =
      Except.error { cls := ExcClass.urlError } :=
  (init_spec downOracle "127.0.0.1" "7099").2.1
    (requestPrep (initState "127.0.0.1" "7099") "get_me" []) rfl rfl

/-- Stepping equation for validate_all on a cons cell, in terms of the
head validation's result and trace. -/
theorem validate_all_cons (o : Oracle) (s : ClientState) (k : String) (v : JSON)
    (rest : List (String × JSON)) (exc : Option ExcClass) :
    validate_all o s ((k, v) :: rest) exc =
      match (validate o s k v exc).1 with
      | Except.error e => (Except.error e, s, (validate o s k v exc).2.2)
      | Except.ok b =>
        match (validate_all o s rest exc).1 with
        | Except.error e =>
          (Except.error e, s,
           (validate o s k v exc).2.2 ++ (validate_all o s rest exc).2.2)
        | Except.ok bs =>
          (Except.ok (b :: bs), s,
           (validate o s k v exc).2.2 ++ (validate_all o s rest exc).2.2) := by
  rcases hv : validate o s k v exc with ⟨r, s1, t⟩
  rcases hr : validate_all o s rest exc with ⟨r2, s2, t2⟩
  conv_lhs => unfold validate_all
  simp only [hv, hr]
  cases r <;> cases r2 <;> rfl

/-- C8: validate_all applies validate to each key/value pair in input
order, returning the ordered list of per-pair boolean results and issuing
the pairs' validation requests in input order; and when validate raises on
a pair preceded only by non-raising pairs, validate_all raises that same
error and its wire traffic stops at the failing pair, never issuing the
validation request of any later pair. -/
theorem validate_all_spec (o : Oracle) (s : ClientState) (exc : Option ExcClass)
    (pairs pre rest : List (String × JSON)) (k : String) (v : JSON) :
    (∀ l, (validate_all o s pairs exc).1 = Except.ok l →
      List.Forall₂ (fun kv b => (validate o s kv.1 kv.2 exc).1 = Except.ok b)
        pairs l ∧
      (validate_all o s pairs exc).2.2 =
        (pairs.map fun kv => (validate o s kv.1 kv.2 exc).2.2).flatten) ∧
    (pairs = pre ++ (k, v) :: rest →
      (∀ p ∈ pre, ∃ b, (validate o s p.1 p.2 exc).1 = Except.ok b) →
      ∀ e, (validate o s k v exc).1 = Except.error e →
        (validate_all o s pairs exc).1 = Except.error e ∧
        (validate_all o s pairs exc).2.2 =
          (pre.map fun kv => (validate o s kv.1 kv.2 exc).2.2).flatten ++
            (validate o s k v exc).2.2) := by
  constructor
  · induction pairs with
    | nil =>
      intro l hl
      simp only [validate_all] at hl
      cases hl
      exact ⟨List.Forall₂.nil, rfl⟩
    | cons kv rest0 ih =>
      rcases kv with ⟨k0, v0⟩
      intro l hl
      rw [validate_all_cons] at hl ⊢
      cases hv0 : (validate o s k0 v0 exc).1 with
      | error e => rw [hv0] at hl; simp at hl
      | ok b =>
        rw [hv0] at hl
        cases hr0 : (validate_all o s rest0 exc).1 with
        | error e => rw [hr0] at hl; simp at hl
        | ok bs =>
          rw [hr0] at hl
          dsimp only at hl ⊢
          simp only [Except.ok.injEq] at hl
          subst hl
          obtain ⟨hf, ht⟩ := ih bs hr0
          exact ⟨List.Forall₂.cons hv0 hf, by simp [ht]⟩
  · intro hp hpre e he
    subst hp
    revert hpre
    induction pre with
    | nil =>
      intro _
      rw [List.nil_append, validate_all_cons, he]
      dsimp only
      exact ⟨rfl, by simp⟩
    | cons p0 pre' ih =>
      intro hpre
      rcases p0 with ⟨k0, v0⟩
      obtain ⟨b0, hb0⟩ := hpre (k0, v0) (by simp)
      have ihh := ih fun p hp => hpre p (by simp [hp])
      rw [List.cons_append, validate_all_cons, hb0, ihh.1]
      dsimp only
      refine ⟨rfl, ?_⟩
      simp [ihh.2]

/-- Witness for C8: on a canned transport rejecting the user_name key,
validate_all over a two-pair list with a raising failure mode raises the
first pair's error and issues only the first pair's request. -/
theorem validate_all_spec_witness :
    (validate_all validateOracle sAnon
        [("user_name", JSON.str "bad"), ("body", JSON.str "fine")]
        (some ExcClass.assertionError)).1 =
      Except.error { cls := ExcClass.assertionError,
                     description := some (JSON.str "newlines") } ∧
    (validate_all validateOracle sAnon
        [("user_name", JSON.str "bad"), ("body", JSON.str "fine")]
        (some ExcClass.assertionError)).2.2 =
      (validate validateOracle sAnon "user_name" (JSON.str "bad")
        (some ExcClass.assertionError)).2.2 := by
  have h := (validate_all_spec validateOracle sAnon (some ExcClass.assertionError)
      [("user_name", JSON.str "bad"), ("body", JSON.str "fine")]
      [] [("body", JSON.str "fine")] "user_name" (JSON.str "bad")).2
    rfl (by simp)
    { cls := ExcClass.assertionError, description := some (JSON.str "newlines") }
    rfl
  simpa using h

/-- C4 counterexample: a concrete user_register call with set_as_user=True
whose integrity assertion passes (the call returns the echoed data), yet
whose wire traffic contains a check_auth credential-verification request:
the commit passes False positionally into hash_auth, not check_validity,
so server-side verification is performed, contrary to the claim. -/
theorem user_register_verifies_counterexample :
    (user_register okOracle sAnon "alice" "secrethash" false true).1 =
      Except.ok (JSON.obj [("user_name", JSON.str "alice"),
                           ("auth_hash", JSON.str "secrethash")]) ∧
    (user_register okOracle sAnon "alice" "secrethash" false true).2.2.map
        Req.endpoint =
      ["user_register", "db_validate", "db_validate", "check_auth", "get_me"] :=
  ⟨rfl, rfl⟩

/-- C4 amended: when the registration response passes the echoed-response
integrity assertion and set_as_user is true, user_register commits the new
identity by calling set_credentials with hashing disabled (hash_auth=False)
and verification left enabled (check_validity=True): its remaining wire
traffic, resulting state and outcome are exactly those of that
set_credentials call. -/
theorem user_register_commit (o : Oracle) (s : ClientState)
    (user_name user_auth auth : String) (hash_auth : Bool) (response dat : JSON)
    (hauth : auth = if hash_auth then sha256_hexdigest user_auth else user_auth)
    (hreq : requestResult o s "user_register"
        [("no_auth", JSON.bool true), ("user_name", JSON.str user_name),
         ("auth_hash", JSON.str auth)] = Except.ok response)
    (hdat : dictGet response "data" = some dat)
    (hah : dictGet dat "auth_hash" = some (JSON.str auth))
    (hun : dictGet dat "user_name" = some (JSON.str user_name)) :
    (user_register o s user_name user_auth hash_auth true).2.2 =
      requestPrep s "user_register"
        [("no_auth", JSON.bool true), ("user_name", JSON.str user_name),
         ("auth_hash", JSON.str auth)] ::
        (set_credentials o s user_name auth false true).2.2 ∧
    (user_register o s user_name user_auth hash_auth true).2.1 =
      (set_credentials o s user_name auth false true).2.1 ∧
    (user_register o s user_name user_auth hash_auth true).1 =
      (set_credentials o s user_name auth false true).1.map (fun _ => dat) := by
  subst hauth
  unfold user_register user_register_hashed
  rw [hreq]
  dsimp only
  rw [hdat]
  dsimp only
  rw [hah, hun]
  dsimp only
  simp only [pyEqStr, beq_self_eq_true, Bool.and_self, if_true]
  rcases hsc : set_credentials o s user_name
      (if hash_auth then sha256_hexdigest user_auth else user_auth) false true
    with ⟨r, s2, t2⟩
  cases r <;> simp [Except.map]

/-- Witness for the amended C4 theorem against the echoing transport. -/
theorem user_register_commit_witness :
    (user_register okOracle sAnon "carol" "pw" true true).2.2 =
      requestPrep sAnon "user_register"
        [("no_auth", JSON.bool true), ("user_name", JSON.str "carol"),
         ("auth_hash", JSON.str (sha256_hexdigest "pw"))] ::
        (set_credentials okOracle sAnon "carol" (sha256_hexdigest "pw")
          false true).2.2 ∧
    (user_register okOracle sAnon "carol" "pw" true true).2.1 =
      (set_credentials okOracle sAnon "carol" (sha256_hexdigest "pw")
        false true).2.1 ∧
    (user_register okOracle sAnon "carol" "pw" true true).1 =
      (set_credentials okOracle sAnon "carol" (sha256_hexdigest "pw")
          false true).1.map
        (fun _ => JSON.obj [("user_name", JSON.str "carol"),
                            ("auth_hash", JSON.str (sha256_hexdigest "pw"))]) :=
  user_register_commit okOracle sAnon "carol" "pw" (sha256_hexdigest "pw") true
    (JSON.obj [("data",
       JSON.obj [("user_name", JSON.str "carol"),
                 ("auth_hash", JSON.str (sha256_hexdigest "pw"))])])
    (JSON.obj [("user_name", JSON.str "carol"),
               ("auth_hash", JSON.str (sha256_hexdigest "pw"))])
    rfl rfl rfl rfl rfl

/-- validate_all never mutates the client state. -/
theorem validate_all_state_eq (o : Oracle) (s : ClientState)
    (pairs : List (String × JSON)) (exc : Option ExcClass) :
    (validate_all o s pairs exc).2.1 = s := by
  cases pairs with
  | nil => rfl
  | cons kv rest =>
    rcases kv with ⟨k, v⟩
    rw [validate_all_cons]
    cases (validate o s k v exc).1 with
    | error e => rfl
    | ok b =>
      cases (validate_all o s rest exc).1 with
      | error e => rfl
      | ok bs => rfl

/-- validate_credentials never mutates the client state. -/
theorem validate_credentials_state_eq (o : Oracle) (s : ClientState)
    (user_name user_auth : String) (exception : Bool) :
    (validate_credentials o s user_name user_auth exception).2.1 = s := by
  unfold validate_credentials
  split
  · rfl
  · split
    · split
      · split <;> rfl
      · rfl
    · split <;> rfl

/-- set_credentials_finish always leaves both credential fields set. -/
theorem set_credentials_finish_creds (o : Oracle) (s : ClientState)
    (user_name auth : String) :
    (set_credentials_finish o s user_name auth).2.1.user_name = some user_name ∧
    (set_credentials_finish o s user_name auth).2.1.user_auth = some auth := by
  unfold set_credentials_finish
  split
  · exact ⟨rfl, rfl⟩
  · split <;> exact ⟨rfl, rfl⟩

/-- set_credentials preserves the Credential State invariant on every
path: untouched on propagated errors, both fields cleared on a rejected
check, both fields set on commit. -/
theorem set_credentials_inv (o : Oracle) (s : ClientState)
    (user_name user_auth : String) (hash_auth check_validity : Bool)
    (hs : credInvariant s) :
    credInvariant (set_credentials o s user_name user_auth
      hash_auth check_validity).2.1 := by
  unfold set_credentials
  split
  · split
    · exact hs
    · split
      · simp [credInvariant]
      · split
        rename_i r s2 t2 heq
        have h := set_credentials_finish_creds o s user_name
          (if hash_auth then sha256_hexdigest user_auth else user_auth)
        rw [heq] at h
        simp only at h
        simp [credInvariant, h.1, h.2]
  · have h := set_credentials_finish_creds o s user_name
      (if hash_auth then sha256_hexdigest user_auth else user_auth)
    simp [credInvariant, h.1, h.2]

/-- user_register_hashed preserves the Credential State invariant on
every path. -/
theorem user_register_hashed_inv (o : Oracle) (s : ClientState)
    (user_name auth : String) (set_as_user : Bool) (hs : credInvariant s) :
    credInvariant (user_register_hashed o s user_name auth set_as_user).2.1 := by
  unfold user_register_hashed
  split
  · exact hs
  · split
    · exact hs
    · split
      · split
        · split
          · split <;>
            · rename_i s2 t2 heq
              have h := set_credentials_inv o s user_name auth false true hs
              rw [heq] at h
              simpa using h
          · exact hs
        · exact hs
      · exact hs

/-- user_update preserves the Credential State invariant: it only ever
refreshes the cached profile. -/
theorem user_update_inv (o : Oracle) (s : ClientState)
    (params : List (String × JSON)) (hs : credInvariant s) :
    credInvariant (user_update o s params).2.1 := by
  unfold user_update
  split
  · exact hs
  · split
    · exact hs
    · split
      · exact hs
      · split <;> simpa [credInvariant] using hs

/-- A constructed client starts with both credential fields absent. -/
theorem init_ok_inv (o : Oracle) (host port : String) (s0 : ClientState)
    (h : (BBJ.init o host port).1 = Except.ok s0) : credInvariant s0 := by
  unfold BBJ.init at h
  dsimp only at h
  split at h
  · split at h <;> simp at h
  · split at h
    · simp at h
    · simp only [Except.ok.injEq] at h
      subst h
      simp [credInvariant, initState]

/-- C7: the Credential State invariant (user_name and user_auth both
present or both absent) holds for every state a construction returns, and
is preserved by every operation of the client on both its normal and its
raising paths. -/
theorem credInvariant_preserved (o : Oracle) (host port : String)
    (s : ClientState) (hs : credInvariant s)
    (endpoint key target_user un1 ua1 un2 ua2 : String)
    (value thread_id : JSON) (params pairs : List (String × JSON))
    (exc : Option ExcClass)
    (excb hash_auth check_validity reg_hash set_as_user : Bool) :
    (∀ s0, (BBJ.init o host port).1 = Except.ok s0 → credInvariant s0) ∧
    credInvariant (call o s endpoint params).2.1 ∧
    credInvariant (request o s endpoint params).2.1 ∧
    credInvariant (validate o s key value exc).2.1 ∧
    credInvariant (validate_all o s pairs exc).2.1 ∧
    credInvariant (set_credentials o s un1 ua1 hash_auth check_validity).2.1 ∧
    credInvariant (validate_credentials o s un1 ua1 excb).2.1 ∧
    credInvariant (user_register o s un2 ua2 reg_hash set_as_user).2.1 ∧
    credInvariant (user_is_registered o s target_user).2.1 ∧
    credInvariant (user_update o s params).2.1 ∧
    credInvariant (thread_index o s).2.1 ∧
    credInvariant (thread_load o s thread_id).2.1 := by
  refine ⟨fun s0 h => init_ok_inv o host port s0 h, hs, hs, hs, ?_, ?_, ?_, ?_,
    hs, ?_, hs, hs⟩
  · rw [validate_all_state_eq]
    exact hs
  · exact set_credentials_inv o s un1 ua1 hash_auth check_validity hs
  · rw [validate_credentials_state_eq]
    exact hs
  · exact user_register_hashed_inv o s un2
      (if reg_hash then sha256_hexdigest ua2 else ua2) set_as_user hs
  · exact user_update_inv o s params hs

/-- Witness for C7 at concrete inputs: the registration-and-commit path
on an authenticated state keeps the invariant. -/
theorem credInvariant_preserved_witness :
    credInvariant (user_register okOracle sAuth "carl" "pw2" true true).2.1 :=
  (credInvariant_preserved okOracle "127.0.0.1" "7099" sAuth
      (by simp [credInvariant, sAuth]) "e" "k" "t" "u1" "a1" "carl" "pw2"
      JSON.null JSON.null [] [] none true true true true
      true).2.2.2.2.2.2.2.1


